import Mathlib

/-!
Shallow embedding of the incremental ETL core of the Quality_App repository
(`src/etl/extract/db_extractor.py`, `src/etl/transform/quality_transformer.py`,
`src/etl/load/db_loader.py`, `src/etl/main.py`, schema from
`src/scripts/init_database.py`), together with theorems settling the frozen
claims about it.

Modelling conventions:
* wall-clock instants and event timestamps are abstract `Nat` ticks
  (day granularity where the SQL talks about `CURRENT_DATE`);
* a nullable database cell / pandas column value is an `Option`;
* fallible operations return `Except String`; a caught-and-logged exception
  is a total function returning the unchanged state;
* the outcome of an environment-dependent database call (connectivity,
  pre-existing table contents) is passed to the embedded function as an
  explicit argument.
-/

namespace QualityApp

/-- One row of the source table `lpb_quality_data` as the extractor's SQL
sees it.  `date` is the raw source event timestamp (timestamp-typed in the
source database, so range filters compare it directly). -/
structure SourceRow where
  part_number : Option String
  serial_number : Option String
  date : Nat
  shift : Option String
  disposition : Option String
  code : Option String
  code_description : Option String
  category : Option String
  type : Option String
  machine_no : Option String
  operator_no : Option String
  who_made_it : Option String
  defect_comment : Option String
  repair_comment : Option String
deriving DecidableEq

/-- `row.get(col, '')` in `create_record_hash`: a missing column yields the
empty-string default, a present value is interpolated as its string form. -/
def pyGet (v : Option String) : String :=
  match v with
  | none => ""
  | some s => s

/-- Models `hashlib.md5(·.encode()).hexdigest()` as an executable
deterministic function of the input string.  The pipeline (and every claim)
depends only on the digest being a pure function of its input, never on the
internals of MD5, so any injective-in-practice string digest is a faithful
stand-in. -/
def md5Hex (s : String) : String :=
  toString (s.foldl (fun h c => (h * 131 + c.toNat) % (2 ^ 64)) 5381)

namespace DatabaseExtractor

/-- `DatabaseExtractor.create_record_hash` (src/etl/extract/db_extractor.py):
`hash_string = f"{part_number}_{serial_number}_{date}_{code_description}"`
then MD5.  It reads only those four fields. -/
def create_record_hash (r : SourceRow) : String :=
  md5Hex (pyGet r.part_number ++ "_" ++ pyGet r.serial_number ++ "_" ++
    toString r.date ++ "_" ++ pyGet r.code_description)

/-- `DatabaseExtractor.get_last_extraction_time`: loops over three candidate
watermark queries (`etl_metadata.etl_runs`, `public.etl_runs`,
`quality.etl_runs`).  Each candidate either raises (`Except.error`, swallowed
by the bare `except: continue`), or succeeds with no row (`Except.ok none`,
`if row:` is falsy so the loop continues), or succeeds with a row
(`Except.ok (some t)`, returned).  Exhausting the list returns `None`. -/
def get_last_extraction_time : List (Except String (Option Nat)) → Option Nat
  | [] => none
  | Except.ok (some t) :: _ => some t
  | Except.ok none :: rest => get_last_extraction_time rest
  | Except.error _ :: rest => get_last_extraction_time rest

/-- The bootstrap lookback used when no watermark is available:
`WHERE date >= CURRENT_DATE - INTERVAL '356 days'`. -/
def LOOKBACK_DAYS : Nat := 356

/-- `DatabaseExtractor._extract_incremental`, restricted to the rows the SQL
window selects.  With a watermark `t` the query is `WHERE date > t`; without
one it is `WHERE date >= CURRENT_DATE - INTERVAL '356 days'` (`today` stands
for `CURRENT_DATE`).  The `ORDER BY date` clause and the per-row metadata
stamping do not change which rows are selected and are modelled separately. -/
def extract_incremental (candidates : List (Except String (Option Nat)))
    (today : Nat) (src : List SourceRow) : List SourceRow :=
  match get_last_extraction_time candidates with
  | some t => src.filter (fun r => decide (t < r.date))
  | none => src.filter (fun r => decide (today - LOOKBACK_DAYS ≤ r.date))

end DatabaseExtractor

/-- One row of `etl_metadata.etl_runs` (schema in
src/scripts/init_database.py). -/
structure ETLRunRow where
  job_name : String
  last_successful_extraction : Nat
  records_processed : Nat
  status : String
  error_message : Option String
  completed_at : Nat
deriving DecidableEq

/-- One step of `ORDER BY completed_at DESC LIMIT 1` over the rows matching
`job_name = 'quality_data_extraction' AND status = 'COMPLETED'`: keep the
matching row with the greatest `completed_at` (a later row wins ties). -/
def betterRun (acc : Option ETLRunRow) (r : ETLRunRow) : Option ETLRunRow :=
  if r.job_name = "quality_data_extraction" && r.status = "COMPLETED" then
    match acc with
    | none => some r
    | some b => if b.completed_at ≤ r.completed_at then some r else some b
  else acc

/-- The row the first candidate watermark query returns: the most recent
`COMPLETED` run of the job, by `completed_at`. -/
def lastCompletedRun (meta : List ETLRunRow) : Option ETLRunRow :=
  meta.foldl betterRun none

/-- The watermark value held in `etl_metadata.etl_runs`: the
`last_successful_extraction` of the most recent `COMPLETED` run. -/
def watermarkOf (meta : List ETLRunRow) : Option Nat :=
  (lastCompletedRun meta).map (fun r => r.last_successful_extraction)

/-- The three candidate lookups as they behave against the deployed schema
created by `init_database.py`: `etl_metadata.etl_runs` exists and answers
with the stored watermark; `public.etl_runs` and `quality.etl_runs` do not
exist, so those queries raise. -/
def deployedCandidates (meta : List ETLRunRow) : List (Except String (Option Nat)) :=
  [Except.ok (watermarkOf meta),
   Except.error "relation public.etl_runs does not exist",
   Except.error "relation quality.etl_runs does not exist"]

/-- One row of the extracted DataFrame handed to the transformer: the source
columns (names already canonical), the parsed `date` (the extractor nulls an
unparseable date, so the cell is an `Option`), and the metadata columns the
extractor stamped (`source_record_hash`, `batch_id`, `extracted_at`). -/
structure RawRow where
  part_number : Option String
  serial_number : Option String
  date : Option Nat
  shift : Option String
  disposition : Option String
  code : Option String
  code_description : Option String
  category : Option String
  type : Option String
  machine_no : Option String
  operator_no : Option String
  who_made_it : Option String
  defect_comment : Option String
  repair_comment : Option String
  source_record_hash : Option String
  batch_id : Option String
  extracted_at : Option Nat
deriving DecidableEq

/-- The extractor's per-row metadata stamping after `_extract_incremental`:
`source_record_hash` from `create_record_hash`, the run's `batch_id`,
`extracted_at = now`, and `date` parsed (a timestamp-typed source value
parses to itself). -/
def stampRow (batch_id : String) (extracted_at : Nat) (r : SourceRow) : RawRow :=
  { part_number := r.part_number, serial_number := r.serial_number,
    date := some r.date, shift := r.shift, disposition := r.disposition,
    code := r.code, code_description := r.code_description,
    category := r.category, type := r.type, machine_no := r.machine_no,
    operator_no := r.operator_no, who_made_it := r.who_made_it,
    defect_comment := r.defect_comment, repair_comment := r.repair_comment,
    source_record_hash := some (DatabaseExtractor.create_record_hash r),
    batch_id := some batch_id, extracted_at := some extracted_at }

/-- pandas `.astype(str)` on a nullable cell: a missing value prints as
`"None"`, a present string is unchanged. -/
def pyStr (v : Option String) : String :=
  match v with
  | none => "None"
  | some s => s

/-- `.str.lower()` (character-wise, executable on `List Char`). -/
def pyLower (s : String) : String :=
  String.mk (s.data.map Char.toLower)

/-- `.str.upper()` (character-wise, executable on `List Char`). -/
def pyUpper (s : String) : String :=
  String.mk (s.data.map Char.toUpper)

/-- `.str.strip()`: drop whitespace from both ends. -/
def pyStrip (s : String) : String :=
  String.mk (((s.data.dropWhile Char.isWhitespace).reverse.dropWhile
    Char.isWhitespace).reverse)

/-- Left-to-right, non-overlapping, global literal replacement on character
lists, with fuel for structural termination (each step consumes at least one
character, so `fuel = length` suffices). -/
def replaceFuel (pat repl : List Char) : Nat → List Char → List Char
  | _, [] => []
  | 0, l => l
  | fuel + 1, c :: cs =>
    if pat.isPrefixOf (c :: cs) then
      repl ++ replaceFuel pat repl fuel (List.drop pat.length (c :: cs))
    else
      c :: replaceFuel pat repl fuel cs

/-- pandas `.str.replace(old, new, regex=False)`: global literal substring
replacement, scanning left to right.  The dictionary's keys are non-empty
phrases; an empty pattern is returned unchanged (it never occurs). -/
def replaceAll (s old new : String) : String :=
  if old.data.isEmpty then s
  else String.mk (replaceFuel old.data new.data s.data.length s.data)

/-- The `code_mapping` of `create_default_config` / `setup_fallback_config`
(src/etl/transform/quality_transformer.py), in declaration order — Python
dicts iterate in insertion order, so `self.code_mapping.items()` yields the
pairs in this order. -/
def default_code_mapping : List (String × String) :=
  [("manque port cable wire", "manque câble"),
   ("manque cable wire", "manque câble"),
   ("manque cable", "manque câble"),
   ("point saute", "point sauté"),
   ("point cassee", "point cassé")]

/-- Step 5 of `QualityTransformer.transform`: lower-case, strip, then apply
each dictionary entry in declaration order as a global literal replacement. -/
def standardize_code_description (mapping : List (String × String)) (s : String) : String :=
  mapping.foldl (fun acc p => replaceAll acc p.1 p.2) (pyStrip (pyLower s))

/-- Step 8 of `QualityTransformer.transform`: `astype(str).str.strip()` then
replace `''`, `'nan'`, `'None'` by null. -/
def clean_who_made_it (v : Option String) : Option String :=
  let s := pyStrip (pyStr v)
  if s = "" || s = "nan" || s = "None" then none else some s

/-- One row of the DataFrame `QualityTransformer.transform` returns: exactly
the `target_columns` of the configuration plus the stamped `load_date` and
`load_timestamp`.  `source_record_hash`, `batch_id`, `extracted_at` and
`operator_no` are not in `target_columns`, so the column selection
`df = df[self.target_columns]` drops them — in particular no fingerprint
column of any kind survives into the loaded DataFrame. -/
structure CleanRecord where
  part_number : Option String
  serial_number : Option String
  date : Option Nat
  shift : Option String
  disposition : String
  code : Option String
  code_description : String
  category : Option String
  type : Option String
  machine_no : Option String
  who_made_it : Option String
  defect_comment : Option String
  repair_comment : Option String
  load_date : Nat
  load_timestamp : Nat
deriving DecidableEq

/-- The per-row field work of `QualityTransformer.transform` (steps 5, 6, 8,
9): description standardization, disposition upper-case/strip, `who_made_it`
cleanup, and the `load_date` / `load_timestamp` stamps.  Step 7's
`pd.to_datetime(errors='coerce')` maps a parsed timestamp to itself and keeps
an unparseable cell null, so on the modelled `Option Nat` cell it is the
identity. -/
def normalizeRow (mapping : List (String × String)) (load_date load_timestamp : Nat)
    (r : RawRow) : CleanRecord :=
  { part_number := r.part_number, serial_number := r.serial_number,
    date := r.date, shift := r.shift,
    disposition := pyStrip (pyUpper (pyStr r.disposition)),
    code := r.code,
    code_description := standardize_code_description mapping (pyStr r.code_description),
    category := r.category, type := r.type, machine_no := r.machine_no,
    who_made_it := clean_who_made_it r.who_made_it,
    defect_comment := r.defect_comment, repair_comment := r.repair_comment,
    load_date := load_date, load_timestamp := load_timestamp }

namespace QualityTransformer

/-- `QualityTransformer.transform` (src/etl/transform/quality_transformer.py):
after column canonicalization and target-column selection (steps 1–3, encoded
in the `RawRow` → `CleanRecord` types), filter rows whose stringified
`part_number` is shorter than 15 characters (step 4), normalize fields
(steps 5, 6, 8, 9 — `normalizeRow`), and drop rows whose `date` did not
parse (step 7).  Step 8 runs after the date filter in the source but touches
only `who_made_it`, so the composition is unchanged. -/
def transform (mapping : List (String × String)) (load_date load_timestamp : Nat)
    (rows : List RawRow) : List CleanRecord :=
  (((rows.filter (fun r => decide (15 ≤ (pyStr r.part_number).length))).map
    (normalizeRow mapping load_date load_timestamp)).filter
      (fun c => c.date.isSome))

end QualityTransformer

/-- One stored row of `quality.clean_quality_data`.  Columns the INSERT does
not mention take their defaults: `record_fingerprint` NULL (subject to the
`UNIQUE` constraint), `is_active` TRUE. -/
structure CleanTableRow where
  fields : CleanRecord
  record_fingerprint : Option String
  is_active : Bool
deriving DecidableEq

/-- Whether inserting a row with the given `record_fingerprint` value would
violate the `UNIQUE` constraint.  SQL UNIQUE never treats two NULLs as
equal, so a NULL fingerprint always inserts. -/
def fingerprintTaken (table : List CleanTableRow) : Option String → Bool
  | none => false
  | some v => table.any (fun row => row.record_fingerprint = some v)

/-- Row-by-row effect of the bulk INSERT issued by
`df.to_sql('clean_quality_data', ..., if_exists='append')`: the first
uniqueness violation aborts the whole statement (the caller's table is then
unchanged — the error branch carries no table). -/
def insertRows (table : List CleanTableRow) : List CleanTableRow → Except String (List CleanTableRow)
  | [] => Except.ok table
  | r :: rest =>
    if fingerprintTaken table r.record_fingerprint then
      Except.error "duplicate key value violates unique constraint"
    else insertRows (table ++ [r]) rest

/-- The INSERT row built from one row of the loaded DataFrame.  The DataFrame
(a `CleanRecord`) has no fingerprint column, so `record_fingerprint` is left
NULL and `is_active` takes its TRUE default. -/
def toTableRow (c : CleanRecord) : CleanTableRow :=
  { fields := c, record_fingerprint := none, is_active := true }

namespace DatabaseLoader

/-- `DatabaseLoader.load_to_clean` (src/etl/load/db_loader.py) against a
healthy target: empty DataFrame returns 0 without touching the table;
otherwise append all rows and return the row count `to_sql` reports. -/
def load_to_clean (table : List CleanTableRow) (df : List CleanRecord) :
    Except String (List CleanTableRow × Nat) :=
  if df.isEmpty then Except.ok (table, 0)
  else (insertRows table (df.map toTableRow)).map (fun t => (t, df.length))

/-- `DatabaseLoader.update_etl_metadata`: INSERT one `etl_runs` row with
`last_successful_extraction = completed_at = datetime.now()`.  The body is
wrapped in `try/except` that only logs, so a failing INSERT (`writeOk =
false`) leaves the table unchanged and raises nothing — the function is
total. -/
def update_etl_metadata (meta : List ETLRunRow) (now : Nat)
    (records_processed : Nat) (status : String) (error_message : Option String)
    (writeOk : Bool) : List ETLRunRow :=
  if writeOk then
    meta ++ [{ job_name := "quality_data_extraction",
               last_successful_extraction := now,
               records_processed := records_processed, status := status,
               error_message := error_message, completed_at := now }]
  else meta

/-- `DatabaseLoader.load` with `load_type='clean'`.  `cleanWrite` is the
outcome of the `load_to_clean` call, which depends on the database
environment (on a healthy connection it equals `load_to_clean table df`; a
connectivity loss is an `Except.error`).  Success records a `COMPLETED`
metadata row with the loaded count; failure records a `FAILED` row with
count 0 and the error text, then re-raises (`Except.error`).  Returns the
result together with the metadata table after the run. -/
def load (now : Nat) (meta : List ETLRunRow) (df : List CleanRecord)
    (cleanWrite : Except String (List CleanTableRow × Nat)) (metaWriteOk : Bool) :
    Except String Nat × List ETLRunRow :=
  if df.isEmpty then (Except.ok 0, meta)
  else
    match cleanWrite with
    | Except.ok (_, records_loaded) =>
      (Except.ok records_loaded,
       update_etl_metadata meta now records_loaded "COMPLETED" none metaWriteOk)
    | Except.error e =>
      let msg := "Load operation failed: " ++ e
      (Except.error msg,
       update_etl_metadata meta now 0 "FAILED" (some msg) metaWriteOk)

end DatabaseLoader

/-- The structured result `ETLOrchestrator.run` returns. -/
structure RunResult where
  status : String
  records_processed : Nat
  message : String
deriving DecidableEq

namespace ETLOrchestrator

/-- `ETLOrchestrator.run` (src/etl/main.py).  The three phases are passed as
their outcomes: `extractResult` the extractor's batch (or the exception it
raised), `transformResult` / `loadResult` the per-batch outcomes of the other
two phases.  Besides the structured result, returns which of the transformer
and loader were invoked.  `mark_staging_processed` catches its own
exceptions and affects neither the result nor the control flow, so it is
omitted. -/
def run (extractResult : Except String (List RawRow))
    (transformResult : List RawRow → Except String (List CleanRecord))
    (loadResult : List CleanRecord → Except String Nat) :
    RunResult × Bool × Bool :=
  match extractResult with
  | Except.error e => ({ status := "error", records_processed := 0, message := e }, false, false)
  | Except.ok raw_data =>
    if raw_data.isEmpty then
      ({ status := "success", records_processed := 0, message := "No new data" }, false, false)
    else
      match transformResult raw_data with
      | Except.error e => ({ status := "error", records_processed := 0, message := e }, true, false)
      | Except.ok clean_data =>
        match loadResult clean_data with
        | Except.error e => ({ status := "error", records_processed := 0, message := e }, true, true)
        | Except.ok records_loaded =>
          ({ status := "success", records_processed := records_loaded,
             message := "Processed " ++ toString records_loaded ++ " records" }, true, true)

end ETLOrchestrator

/-! ## Shared lemmas -/

theorem filter_map_comm {α β : Type} (f : α → β) (q : β → Bool) (l : List α) :
    (l.map f).filter q = (l.filter (fun a => q (f a))).map f := by
  induction l with
  | nil => rfl
  | cons x xs ih =>
    by_cases h : q (f x) <;> simp [List.filter_cons, h, ih]

theorem filter_filter_bool {α : Type} (p q : α → Bool) (l : List α) :
    (l.filter p).filter q = l.filter (fun a => p a && q a) := by
  induction l with
  | nil => rfl
  | cons x xs ih =>
    by_cases hp : p x <;> by_cases hq : q x <;> simp [List.filter_cons, hp, hq, ih]

theorem betterRun_eq_or (acc : Option ETLRunRow) (r : ETLRunRow) :
    betterRun acc r = acc ∨ betterRun acc r = some r := by
  rcases acc with _ | b <;> unfold betterRun
  · split
    · exact Or.inr rfl
    · exact Or.inl rfl
  · split
    · dsimp only
      split
      · exact Or.inr rfl
      · exact Or.inl rfl
    · exact Or.inl rfl

theorem foldl_betterRun_mem (l : List ETLRunRow) :
    ∀ (acc : Option ETLRunRow) (b : ETLRunRow),
      l.foldl betterRun acc = some b → acc = some b ∨ b ∈ l := by
  induction l with
  | nil => intro acc b h; left; exact h
  | cons x xs ih =>
    intro acc b h
    rcases ih (betterRun acc x) b h with h1 | h1
    · rcases betterRun_eq_or acc x with h2 | h2
      · left; rw [← h2]; exact h1
      · right
        have hx : x = b := by
          have := h2.symm.trans h1
          exact Option.some.inj this
        rw [← hx]; exact List.mem_cons_self x xs
    · right; exact List.mem_cons_of_mem x h1

theorem lastCompletedRun_mem (meta : List ETLRunRow) (b : ETLRunRow)
    (h : lastCompletedRun meta = some b) : b ∈ meta := by
  rcases foldl_betterRun_mem meta none b h with h1 | h1
  · exact absurd h1 (by simp)
  · exact h1

theorem watermark_append_completed (meta : List ETLRunRow) (row : ETLRunRow)
    (hjob : row.job_name = "quality_data_extraction") (hst : row.status = "COMPLETED")
    (hmono : ∀ r ∈ meta, r.completed_at ≤ row.completed_at) :
    watermarkOf (meta ++ [row]) = some row.last_successful_extraction := by
  unfold watermarkOf lastCompletedRun
  rw [List.foldl_append]
  cases hfold : List.foldl betterRun none meta with
  | none => unfold betterRun; simp [hjob, hst]
  | some b =>
    have hb : b ∈ meta := lastCompletedRun_mem meta b hfold
    have hle : b.completed_at ≤ row.completed_at := hmono b hb
    unfold betterRun
    simp [hjob, hst, hle]

theorem watermark_append_other (meta : List ETLRunRow) (row : ETLRunRow)
    (hst : row.status ≠ "COMPLETED") :
    watermarkOf (meta ++ [row]) = watermarkOf meta := by
  unfold watermarkOf lastCompletedRun
  rw [List.foldl_append]
  have hb : betterRun (List.foldl betterRun none meta) row
      = List.foldl betterRun none meta := by
    unfold betterRun; simp [hst]
  simp only [List.foldl_cons, List.foldl_nil, hb]

/-! ## Claim theorems -/

/-- C2.  Fingerprint determinism and collapse: `create_record_hash` is a pure
function of a record (hashing twice gives the same value), and any two source
rows that agree on part number, serial number, date and code description —
whatever their other fields, e.g. machine number or comments — receive equal
fingerprints. -/
theorem fingerprint_deterministic_and_collapsing (r1 r2 : SourceRow)
    (hp : r1.part_number = r2.part_number)
    (hs : r1.serial_number = r2.serial_number)
    (hd : r1.date = r2.date)
    (hc : r1.code_description = r2.code_description) :
    DatabaseExtractor.create_record_hash r1 = DatabaseExtractor.create_record_hash r1
    ∧ DatabaseExtractor.create_record_hash r1 = DatabaseExtractor.create_record_hash r2 := by
  refine ⟨rfl, ?_⟩
  unfold DatabaseExtractor.create_record_hash
  rw [hp, hs, hd, hc]

/-- Concrete record for the C2 witness. -/
def rowA : SourceRow :=
  { part_number := some "ABCDEFGHIJKLMNOPQRST", serial_number := some "SN-001",
    date := 100, shift := some "A", disposition := some "Scrap",
    code := some "D10", code_description := some "point saute",
    category := none, type := none, machine_no := some "M1",
    operator_no := some "OP7", who_made_it := some "team a",
    defect_comment := some "left seam", repair_comment := none }

/-- Same logical event as `rowA`, observed with a different machine number and
different comment fields. -/
def rowB : SourceRow :=
  { rowA with machine_no := some "M2", operator_no := some "OP9",
              defect_comment := some "other note",
              repair_comment := some "resewn" }

/-- Witness for C2 at two concrete rows that differ in machine number and
comments but agree on the four fingerprinted fields. -/
theorem fingerprint_collapsing_witness :
    rowA.machine_no ≠ rowB.machine_no
    ∧ rowA.defect_comment ≠ rowB.defect_comment
    ∧ DatabaseExtractor.create_record_hash rowA = DatabaseExtractor.create_record_hash rowB :=
  ⟨by decide, by decide,
   (fingerprint_deterministic_and_collapsing rowA rowB rfl rfl rfl rfl).2⟩

/-- C5.  Watermark-lookup failure is never fatal: with every candidate query
failing, `get_last_extraction_time` returns `none` (it does not propagate the
error), each failing candidate is skipped in favour of the rest (as is a
candidate that finds no `COMPLETED` row), and the incremental extraction then
degrades to the bootstrap window of 356 days before the current date — the
same window used when the deployed metadata table holds no prior `COMPLETED`
run. -/
theorem watermark_lookup_never_fatal (e1 e2 e3 : String) (today : Nat)
    (src : List SourceRow) :
    DatabaseExtractor.get_last_extraction_time
      [Except.error e1, Except.error e2, Except.error e3] = none
    ∧ DatabaseExtractor.extract_incremental
        [Except.error e1, Except.error e2, Except.error e3] today src
        = src.filter (fun r => decide (today - DatabaseExtractor.LOOKBACK_DAYS ≤ r.date))
    ∧ (∀ rest, DatabaseExtractor.get_last_extraction_time (Except.error e1 :: rest)
        = DatabaseExtractor.get_last_extraction_time rest)
    ∧ (∀ rest, DatabaseExtractor.get_last_extraction_time (Except.ok none :: rest)
        = DatabaseExtractor.get_last_extraction_time rest)
    ∧ DatabaseExtractor.extract_incremental (deployedCandidates []) today src
        = src.filter (fun r => decide (today - DatabaseExtractor.LOOKBACK_DAYS ≤ r.date)) :=
  ⟨rfl, rfl, fun _ => rfl, fun _ => rfl, rfl⟩

/-- C6.  No-op on empty window: when the extractor returns an empty batch the
orchestrator short-circuits — neither the transformer nor the loader is
invoked — and returns the structured success result with zero records and the
"No new data" message. -/
theorem orchestrator_noop_on_empty
    (tr : List RawRow → Except String (List CleanRecord))
    (ld : List CleanRecord → Except String Nat) :
    ETLOrchestrator.run (Except.ok []) tr ld
      = ({ status := "success", records_processed := 0, message := "No new data" },
         false, false) := rfl

/-- C8.  Dictionary normalization order: the transformer lower-cases and
strips the description and then applies the dictionary entries in declaration
order, each as a global literal replacement.  On the claim's mapping and
input, the first rule rewrites "manque cable wire" and the second then finds
no "manque cable" left, giving "manque câble rouge"; the last conjunct shows
one entry rewriting two occurrences in the same string (global, not
once-only) after lower-casing and stripping. -/
theorem dictionary_normalization_order :
    standardize_code_description
      [("manque cable wire", "manque câble"), ("manque cable", "manque câble")]
      "manque cable wire rouge" = "manque câble rouge"
    ∧ (∀ p rest s, standardize_code_description (p :: rest) s
        = List.foldl (fun acc q => replaceAll acc q.1 q.2)
            (replaceAll (pyStrip (pyLower s)) p.1 p.2) rest)
    ∧ standardize_code_description [("manque cable", "manque câble")]
        " Manque Cable et manque cable " = "manque câble et manque câble" :=
  ⟨by decide, fun _ _ _ => rfl, by decide⟩

/-- A record with the 9-character part number `"SHORT123"` and a valid date,
used by C9. -/
def shortRow : RawRow :=
  { part_number := some "SHORT123", serial_number := some "SN-2",
    date := some 50, shift := none, disposition := none, code := none,
    code_description := some "ok", category := none, type := none,
    machine_no := none, operator_no := none, who_made_it := none,
    defect_comment := none, repair_comment := none,
    source_record_hash := none, batch_id := none, extracted_at := none }

/-- C9.  Validation filter: the transformer's output consists of exactly the
input records whose stringified part number has length ≥ 15 and whose event
timestamp parsed to a valid date (each mapped through the per-row field
normalization, which removes no record); in particular a record with the
9-character part number `"SHORT123"` is dropped. -/
theorem validation_filter_exact (mapping : List (String × String))
    (load_date load_timestamp : Nat) (rows : List RawRow) :
    QualityTransformer.transform mapping load_date load_timestamp rows
      = (rows.filter (fun r =>
            decide (15 ≤ (pyStr r.part_number).length) && r.date.isSome)).map
          (normalizeRow mapping load_date load_timestamp)
    ∧ QualityTransformer.transform mapping load_date load_timestamp [shortRow] = [] := by
  constructor
  · unfold QualityTransformer.transform
    rw [filter_map_comm, filter_filter_bool]
    rfl
  · rfl

/-- C3.  Watermark contract: when the clean-table write succeeds (and the
metadata insert itself lands), `load` returns the loaded count and appends
exactly one `COMPLETED` run row carrying that count and the current wall
clock `now` — not any event timestamp of the batch — as
`last_successful_extraction`; the next incremental extraction's watermark
lookup against the deployed schema then answers `now`, which is ≥ any
previously recorded watermark (wall clock monotone across runs). -/
theorem watermark_contract (now : Nat) (meta : List ETLRunRow)
    (df : List CleanRecord) (tbl : List CleanTableRow) (n : Nat)
    (hdf : df.isEmpty = false)
    (hmono : ∀ r ∈ meta, r.completed_at ≤ now ∧ r.last_successful_extraction ≤ now) :
    (DatabaseLoader.load now meta df (Except.ok (tbl, n)) true).1 = Except.ok n
    ∧ (DatabaseLoader.load now meta df (Except.ok (tbl, n)) true).2
        = meta ++ [{ job_name := "quality_data_extraction",
                     last_successful_extraction := now, records_processed := n,
                     status := "COMPLETED", error_message := none, completed_at := now }]
    ∧ DatabaseExtractor.get_last_extraction_time
        (deployedCandidates (DatabaseLoader.load now meta df (Except.ok (tbl, n)) true).2)
        = some now
    ∧ (∀ t1, watermarkOf meta = some t1 → t1 ≤ now) := by
  have hload : DatabaseLoader.load now meta df (Except.ok (tbl, n)) true
      = (Except.ok n,
         meta ++ [{ job_name := "quality_data_extraction",
                    last_successful_extraction := now, records_processed := n,
                    status := "COMPLETED", error_message := none, completed_at := now }]) := by
    unfold DatabaseLoader.load DatabaseLoader.update_etl_metadata
    simp [hdf]
  have hwm : watermarkOf (DatabaseLoader.load now meta df (Except.ok (tbl, n)) true).2
      = some now := by
    rw [hload]
    exact watermark_append_completed meta _ rfl rfl (fun r hr => (hmono r hr).1)
  refine ⟨by rw [hload], by rw [hload], ?_, ?_⟩
  · unfold deployedCandidates
    rw [hwm]
    rfl
  · intro t1 ht1
    unfold watermarkOf at ht1
    cases hrun : lastCompletedRun meta with
    | none => rw [hrun] at ht1; exact absurd ht1 (by simp)
    | some b =>
      rw [hrun] at ht1
      have hb : b ∈ meta := lastCompletedRun_mem meta b hrun
      have := (hmono b hb).2
      simp only [Option.map_some'] at ht1
      rw [← Option.some.inj ht1]
      exact this

/-- A concrete transformed record used by several witnesses. -/
def cleanDemo : CleanRecord :=
  { part_number := some "ABCDEFGHIJKLMNOPQRST", serial_number := some "SN-9",
    date := some 5, shift := some "A", disposition := "SCRAP", code := some "D10",
    code_description := "point sauté", category := none, type := none,
    machine_no := some "M1", who_made_it := none, defect_comment := none,
    repair_comment := none, load_date := 9, load_timestamp := 9 }

/-- Witness for C3: a successful load of one record at wall clock 10 over an
empty run history records the count and makes 10 the next watermark. -/
theorem watermark_contract_witness :
    (DatabaseLoader.load 10 [] [cleanDemo] (Except.ok ([], 1)) true).1 = Except.ok 1
    ∧ DatabaseExtractor.get_last_extraction_time
        (deployedCandidates (DatabaseLoader.load 10 [] [cleanDemo] (Except.ok ([], 1)) true).2)
        = some 10 :=
  have h := watermark_contract 10 [] [cleanDemo] [] 1 rfl (fun _ hr => nomatch hr)
  ⟨h.1, h.2.2.1⟩

/-- C4.  Failure bookkeeping: when the clean-table write raises, `load`
appends exactly one run row — status `FAILED`, zero records, the error
message — and re-raises the wrapped error; no `COMPLETED` row is written, so
the watermark and hence the next run's extraction window are unchanged. -/
theorem load_failure_bookkeeping (now : Nat) (meta : List ETLRunRow)
    (df : List CleanRecord) (e : String) (hdf : df.isEmpty = false) :
    DatabaseLoader.load now meta df (Except.error e) true
      = (Except.error ("Load operation failed: " ++ e),
         meta ++ [{ job_name := "quality_data_extraction",
                    last_successful_extraction := now, records_processed := 0,
                    status := "FAILED",
                    error_message := some ("Load operation failed: " ++ e),
                    completed_at := now }])
    ∧ watermarkOf (DatabaseLoader.load now meta df (Except.error e) true).2
        = watermarkOf meta
    ∧ (∀ today src, DatabaseExtractor.extract_incremental
        (deployedCandidates (DatabaseLoader.load now meta df (Except.error e) true).2)
        today src
        = DatabaseExtractor.extract_incremental (deployedCandidates meta) today src) := by
  have hload : DatabaseLoader.load now meta df (Except.error e) true
      = (Except.error ("Load operation failed: " ++ e),
         meta ++ [{ job_name := "quality_data_extraction",
                    last_successful_extraction := now, records_processed := 0,
                    status := "FAILED",
                    error_message := some ("Load operation failed: " ++ e),
                    completed_at := now }]) := by
    unfold DatabaseLoader.load DatabaseLoader.update_etl_metadata
    simp [hdf]
  have hwm : watermarkOf (DatabaseLoader.load now meta df (Except.error e) true).2
      = watermarkOf meta := by
    rw [hload]
    exact watermark_append_other meta _ (by simp)
  refine ⟨hload, hwm, ?_⟩
  intro today src
  unfold DatabaseExtractor.extract_incremental deployedCandidates
  rw [hwm]

/-- Witness for C4: a failing load over an empty run history records one
FAILED row and leaves the (empty) watermark unchanged. -/
theorem load_failure_bookkeeping_witness :
    DatabaseLoader.load 10 [] [cleanDemo] (Except.error "connection refused") true
      = (Except.error "Load operation failed: connection refused",
         [{ job_name := "quality_data_extraction", last_successful_extraction := 10,
            records_processed := 0, status := "FAILED",
            error_message := some "Load operation failed: connection refused",
            completed_at := 10 }])
    ∧ watermarkOf (DatabaseLoader.load 10 [] [cleanDemo]
        (Except.error "connection refused") true).2 = watermarkOf [] :=
  have h := load_failure_bookkeeping 10 [] [cleanDemo] "connection refused" rfl
  ⟨h.1, h.2.1⟩

/-- C7.  The orchestrator never propagates an exception: its result is always
a structured record whose status is `"success"` or `"error"`, and whichever
phase raises — extraction, transformation or loading — the caller receives
`{status := "error", records_processed := 0, message := the error text}`. -/
theorem orchestrator_structured_result (ext : Except String (List RawRow))
    (tr : List RawRow → Except String (List CleanRecord))
    (ld : List CleanRecord → Except String Nat) :
    ((ETLOrchestrator.run ext tr ld).1.status = "success"
      ∨ (ETLOrchestrator.run ext tr ld).1.status = "error")
    ∧ (∀ e, ext = Except.error e →
        ETLOrchestrator.run ext tr ld
          = ({ status := "error", records_processed := 0, message := e }, false, false))
    ∧ (∀ raw e, ext = Except.ok raw → raw.isEmpty = false → tr raw = Except.error e →
        ETLOrchestrator.run ext tr ld
          = ({ status := "error", records_processed := 0, message := e }, true, false))
    ∧ (∀ raw clean e, ext = Except.ok raw → raw.isEmpty = false →
        tr raw = Except.ok clean → ld clean = Except.error e →
        ETLOrchestrator.run ext tr ld
          = ({ status := "error", records_processed := 0, message := e }, true, true)) := by
  refine ⟨?_, ?_, ?_, ?_⟩
  · rcases ext with e | raw
    · right; rfl
    · unfold ETLOrchestrator.run
      rcases hraw : raw.isEmpty with _ | _
      · rcases htr : tr raw with e | clean
        · right; simp [hraw, htr]
        · rcases hld : ld clean with e | k
          · right; simp [hraw, htr, hld]
          · left; simp [hraw, htr, hld]
      · left; simp [hraw]
  · intro e he; subst he; rfl
  · intro raw e hext hraw htr
    subst hext
    unfold ETLOrchestrator.run
    simp [hraw, htr]
  · intro raw clean e hext hraw htr hld
    subst hext
    unfold ETLOrchestrator.run
    simp [hraw, htr, hld]

/-- Witness for C7 at a concrete failing extraction. -/
theorem orchestrator_structured_result_witness :
    ETLOrchestrator.run (Except.error "source database unreachable")
      (fun _ => Except.ok []) (fun _ => Except.ok 0)
      = ({ status := "error", records_processed := 0,
           message := "source database unreachable" }, false, false) :=
  (orchestrator_structured_result (Except.error "source database unreachable")
      (fun _ => Except.ok []) (fun _ => Except.ok 0)).2.1
    "source database unreachable" rfl

/-- A concrete raw record with a long part number and a valid date. -/
def rawDemo : RawRow :=
  { part_number := some "ABCDEFGHIJKLMNOPQRST", serial_number := some "SN-9",
    date := some 5, shift := some "A", disposition := some "Scrap",
    code := some "D10", code_description := some "Point Saute",
    category := none, type := none, machine_no := some "M1",
    operator_no := some "OP7", who_made_it := some "team a",
    defect_comment := none, repair_comment := none,
    source_record_hash := some "abc", batch_id := some "20251012_060000",
    extracted_at := some 4 }

/-- C10.  A failing metadata insert is swallowed: `update_etl_metadata` with
a failing write returns the run history unchanged (and raises nothing), so a
run whose clean-table write succeeded still returns the loaded count, the
orchestrator reports success with that count, and — no `COMPLETED` row having
been recorded — the watermark silently stays where it was. -/
theorem metadata_write_failure_silent_success (now : Nat) (meta : List ETLRunRow)
    (df : List CleanRecord) (tbl : List CleanTableRow) (n k : Nat)
    (raw : List RawRow) (st : String) (em : Option String)
    (hdf : df.isEmpty = false) (hraw : raw.isEmpty = false) :
    DatabaseLoader.update_etl_metadata meta now k st em false = meta
    ∧ DatabaseLoader.load now meta df (Except.ok (tbl, n)) false = (Except.ok n, meta)
    ∧ ETLOrchestrator.run (Except.ok raw) (fun _ => Except.ok df)
        (fun d => (DatabaseLoader.load now meta d (Except.ok (tbl, n)) false).1)
        = ({ status := "success", records_processed := n,
             message := "Processed " ++ toString n ++ " records" }, true, true)
    ∧ watermarkOf (DatabaseLoader.load now meta df (Except.ok (tbl, n)) false).2
        = watermarkOf meta := by
  have hload : DatabaseLoader.load now meta df (Except.ok (tbl, n)) false
      = (Except.ok n, meta) := by
    unfold DatabaseLoader.load DatabaseLoader.update_etl_metadata
    simp [hdf]
  refine ⟨rfl, hload, ?_, by rw [hload]⟩
  unfold ETLOrchestrator.run
  simp [hraw, hdf, hload]

/-- Witness for C10: loading one record with the metadata write failing still
reports success with one record, over an unchanged empty run history. -/
theorem metadata_write_failure_silent_witness :
    ETLOrchestrator.run (Except.ok [rawDemo]) (fun _ => Except.ok [cleanDemo])
      (fun d => (DatabaseLoader.load 10 [] d (Except.ok ([], 1)) false).1)
      = ({ status := "success", records_processed := 1,
           message := "Processed 1 records" }, true, true) :=
  (metadata_write_failure_silent_success 10 [] [cleanDemo] [] 1 3 [rawDemo]
    "COMPLETED" none rfl rfl).2.2.1

/-- The C1 demonstration record: a valid source row (20-character part
number, parseable date). -/
def demoSource : SourceRow :=
  { part_number := some "ABCDEFGHIJKLMNOPQRST", serial_number := some "SER-001",
    date := 100, shift := some "A", disposition := some "Scrap",
    code := some "D10", code_description := some "Point Saute",
    category := none, type := none, machine_no := some "M7",
    operator_no := some "OP1", who_made_it := some "team a",
    defect_comment := some "note", repair_comment := none }

/-- `demoSource` as the extractor delivers it: fingerprint computed and
stamped into `source_record_hash`. -/
def demoRaw : RawRow := stampRow "20251012_060000" 500 demoSource

/-- The transformed batch for `demoSource` under the default dictionary. -/
def demoClean : List CleanRecord :=
  QualityTransformer.transform default_code_mapping 501 502 [demoRaw]

/-- Load the transformed batch for `demoSource` into an empty clean table
twice in a row — the retry/overlap situation the dedup invariant is about —
and report the final row count together with whether every stored row's
`record_fingerprint` is NULL. -/
def doubleLoadOutcome : Except String (Nat × Bool) :=
  match DatabaseLoader.load_to_clean [] demoClean with
  | Except.error e => Except.error e
  | Except.ok (t1, _) =>
    match DatabaseLoader.load_to_clean t1 demoClean with
    | Except.error e => Except.error e
    | Except.ok (t2, _) =>
      Except.ok (t2.length, t2.all (fun row => row.record_fingerprint = none))

/-- C1 (refuting evaluation).  The extractor does fingerprint the record, but
the transformer's target-column selection drops `source_record_hash` and the
loader never populates `record_fingerprint`, so re-loading the very same
one-record batch — zero genuinely new fingerprints — succeeds and grows the
clean table from one row to two, every stored fingerprint being NULL (which
SQL `UNIQUE` never rejects).  The claimed dedup invariant therefore fails on
the code. -/
theorem clean_table_dedup_violated :
    demoRaw.source_record_hash = some (DatabaseExtractor.create_record_hash demoSource)
    ∧ demoClean.length = 1
    ∧ doubleLoadOutcome = Except.ok (2, true) :=
  ⟨rfl, rfl, rfl⟩

end QualityApp
